import Mathlib

/-!
Shallow embedding of qtimaker QTI 2.1 assessment generator,
`src/qtimaker/xml_assessment_v2.py`, together with the fragment of the
quiz data model that the generator consumes.

The repository `quiz.py` module (imported at the top of
`xml_assessment_v2.py`) is not part of the available sources, so the
data structures `Quiz`, `Question`, `Choice`, `Group`, `GroupStart`,
`GroupEnd` and `TextRegion` are modelled from the specification data
model (spec §3) restricted to exactly the fields that
`xml_assessment_v2.py` reads.  Every function below is transcribed from
`assessment_v2` and the module-level XML templates; line numbers refer
to `src/qtimaker/xml_assessment_v2.py`.

Numeric conventions: point values are natural numbers (the Python code
treats them as opaque numbers, only summing and multiplying them);
numerical-question bounds are rationals, and the `*_html_xml` string
fields carry their pre-rendered textual form exactly as the Python
model exposes separate `numerical_min` / `numerical_min_html_xml`
style attributes.
-/

namespace Qtimaker

/-- Modelled from the spec: a choice of a choice-bearing question.
Fields are the ones `xml_assessment_v2.py` reads: the model `id`, the
`correct` flag, the raw XML-escaped text `choice_xml` and the
HTML-rendered text `choice_html_xml`. -/
structure Choice where
  id : String
  choice_xml : String
  choice_html_xml : String
  correct : Bool
  deriving DecidableEq, Repr

/-- Modelled from the spec: a question record, restricted to the fields
read by `assessment_v2` (spec §3: type tag, title, body, points,
choices, numerical exact/min/max data, three optional feedback
channels).  The `type` field keeps the Python string tags
(`"true_false_question"`, ...) because the generator dispatches on
string comparison. -/
structure Question where
  id : String
  type : String
  title_xml : String
  question_html_xml : String
  points_possible : Nat
  choices : List Choice
  numerical_min : ℚ
  numerical_max : ℚ
  numerical_exact : Option ℚ
  numerical_min_html_xml : String
  numerical_max_html_xml : String
  numerical_exact_html_xml : String
  correct_feedback_raw : Option String
  correct_feedback_html_xml : String
  incorrect_feedback_raw : Option String
  incorrect_feedback_html_xml : String
  feedback_raw : Option String
  feedback_html_xml : String
  deriving DecidableEq, Repr

/-- Modelled from the spec: a random-selection group (spec §3), with
the fields read by `assessment_v2`: `id`, `title_xml`, `pick`,
`points_per_question`. -/
structure Group where
  id : String
  title_xml : String
  pick : Nat
  points_per_question : Nat
  deriving DecidableEq, Repr

/-- Modelled from the spec: a non-scored informational text block
(spec §3), with the fields read by `assessment_v2`. -/
structure TextRegion where
  id : String
  title_xml : String
  text_html_xml : String
  deriving DecidableEq, Repr

/-- Modelled from the spec: one entry of `quiz.questions_and_delims`
(spec §3: "an ordered sequence of entries, each one of: Question,
GroupStart, GroupEnd, TextRegion"; a GroupStart/GroupEnd pair brackets
the contiguous run of Question entries of its pool).  `groupStart g`
plays the role of a Python `GroupStart` object whose `.group` is `g`. -/
inductive QuestionOrDelim where
  | question (q : Question)
  | groupStart (g : Group)
  | groupEnd (g : Group)
  | textRegion (tr : TextRegion)
  deriving DecidableEq, Repr

/-- Modelled from the spec: the quiz model, restricted to the two
fields `assessment_v2` reads: the ordered entry sequence and the
pre-rendered quiz-wide shuffle flag (compared against the string
`"true"` at line 367). -/
structure Quiz where
  questions_and_delims : List QuestionOrDelim
  shuffle_answers_xml : String
  deriving DecidableEq, Repr

/-- One iteration of the MAXSCORE accumulation loop of lines 289-294:
a `Question` entry adds its own `points_possible`, a `GroupStart`
entry adds `points_per_question * pick`, and `GroupEnd` and
`TextRegion` entries add nothing. -/
def points_step (acc : Nat) : QuestionOrDelim → Nat
  | .question q => acc + q.points_possible
  | .groupStart gs => acc + gs.points_per_question * gs.pick
  | .groupEnd _ => acc
  | .textRegion _ => acc

/-- Lines 288-294: the MAXSCORE total spliced into the
assessment-level default at line 446. -/
def points_possible_total (quiz : Quiz) : Nat :=
  quiz.questions_and_delims.foldl points_step 0

/-- The specification total-score formula, written from the spec
words for comparison with `points_possible_total` (spec §4.3: "Total
possible score = Σ(points_possible) over standalone Questions +
Σ(points_per_question × pick) over each Group").  "Standalone" means
not enclosed between a GroupStart and its GroupEnd, so the fold keeps
an in-group flag. -/
def spec_max_score (quiz : Quiz) : Nat :=
  (quiz.questions_and_delims.foldl
    (fun st x =>
      match st, x with
      | (acc, _), .groupStart gs => (acc + gs.points_per_question * gs.pick, true)
      | (acc, _), .groupEnd _ => (acc, false)
      | (acc, inGroup), .question q => (if inGroup then acc else acc + q.points_possible, inGroup)
      | (acc, inGroup), .textRegion _ => (acc, inGroup))
    (0, false)).1

/-- Sum of `points_possible` over every `Question` entry of a list
(group-enclosed ones included). -/
def question_points_sum (l : List QuestionOrDelim) : Nat :=
  (l.map (fun x =>
    match x with
    | .question q => q.points_possible
    | _ => 0)).sum

/-- Sum of `points_per_question * pick` over every `GroupStart` entry
of a list. -/
def group_points_sum (l : List QuestionOrDelim) : Nat :=
  (l.map (fun x =>
    match x with
    | .groupStart gs => gs.points_per_question * gs.pick
    | _ => 0)).sum

/-- Lines 391-392 and 441-442: the generator aborts with a Python
`ValueError` when a question type matches no encoding rule.  (The
`TypeError` of line 325 is unreachable in the typed entry model.) -/
inductive PyExc where
  | valueError
  deriving DecidableEq, Repr

/-- Template `BEFORE_ITEMS`, lines 16-21. -/
def BEFORE_ITEMS (assessment_identifier title : String) : String :=
  "<?xml version=\"1.0\" encoding=\"UTF-8\"?>\n<assessmentTest xmlns=\"http://www.imsglobal.org/xsd/imsqti_v2p1\" xmlns:xsi=\"http://www.w3.org/2001/XMLSchema-instance\" xsi:schemaLocation=\"http://www.imsglobal.org/xsd/imsqti_v2p1 http://www.imsglobal.org/xsd/imsqti_v2p1.xsd\" identifier=\"" ++ assessment_identifier ++ "\" title=\"" ++ title ++ "\">\n  <testPart identifier=\"testpart1\" navigationMode=\"nonlinear\" submissionMode=\"individual\">\n    <assessmentSection identifier=\"root_section\" title=\"" ++ title ++ "\">\n"

/-- Template `AFTER_ITEMS`, lines 23-33; `points_possible` is spliced
into the assessment-level MAXSCORE default value. -/
def AFTER_ITEMS (points_possible : String) : String :=
  "    </assessmentSection>\n  </testPart>\n  <outcomeDeclaration identifier=\"SCORE\" baseType=\"float\" cardinality=\"single\"/>\n  <outcomeDeclaration identifier=\"MAXSCORE\" baseType=\"float\" cardinality=\"single\">\n    <defaultValue>\n      <value>" ++ points_possible ++ "</value>\n    </defaultValue>\n  </outcomeDeclaration>\n</assessmentTest>\n"

/-- Template `GROUP_START`, lines 35-43. -/
def GROUP_START (ident group_title pick points_per_item : String) : String :=
  "      <assessmentSection identifier=\"" ++ ident ++ "\" title=\"" ++ group_title ++ "\">\n        <selection>\n          <selectionNumber>" ++ pick ++ "</selectionNumber>\n        </selection>\n        <rubricBlock identifier=\"points_per_item\" view=\"author\">\n          <p>Points per item: " ++ points_per_item ++ "</p>\n        </rubricBlock>\n"

/-- Template `GROUP_END`, lines 45-47. -/
def GROUP_END : String :=
  "      </assessmentSection>\n"

/-- Template `START_ITEM`, lines 53-55. -/
def START_ITEM (question_identifier question_title : String) : String :=
  "      <assessmentItem identifier=\"" ++ question_identifier ++ "\" title=\"" ++ question_title ++ "\" adaptive=\"false\" timeDependent=\"false\">\n"

/-- Template `END_ITEM`, lines 57-59. -/
def END_ITEM : String :=
  "      </assessmentItem>\n"

/-- Template `ITEM_METADATA`, lines 61-75. -/
def ITEM_METADATA (base_type cardinality response_declaration_body points_possible : String) : String :=
  "        <responseDeclaration identifier=\"RESPONSE\" baseType=\"" ++ base_type ++ "\" cardinality=\"" ++ cardinality ++ "\">\n" ++ response_declaration_body ++ "\n        </responseDeclaration>\n        <outcomeDeclaration identifier=\"SCORE\" baseType=\"float\" cardinality=\"single\">\n          <defaultValue>\n            <value>0</value>\n          </defaultValue>\n        </outcomeDeclaration>\n        <outcomeDeclaration identifier=\"MAXSCORE\" baseType=\"float\" cardinality=\"single\">\n          <defaultValue>\n            <value>" ++ points_possible ++ "</value>\n          </defaultValue>\n        </outcomeDeclaration>\n"

/-- Template `ITEM_BODY_MCTF`, lines 77-84 (fixed `maxChoices=\"1\"`). -/
def ITEM_BODY_MCTF (question_html_xml shuffle choices : String) : String :=
  "        <itemBody>\n          <p>" ++ question_html_xml ++ "</p>\n          <choiceInteraction responseIdentifier=\"RESPONSE\" shuffle=\"" ++ shuffle ++ "\" maxChoices=\"1\">\n" ++ choices ++ "\n          </choiceInteraction>\n        </itemBody>\n"

/-- Template `ITEM_BODY_MULTANS`, lines 86-93. -/
def ITEM_BODY_MULTANS (question_html_xml shuffle max_choices choices : String) : String :=
  "        <itemBody>\n          <p>" ++ question_html_xml ++ "</p>\n          <choiceInteraction responseIdentifier=\"RESPONSE\" shuffle=\"" ++ shuffle ++ "\" maxChoices=\"" ++ max_choices ++ "\">\n" ++ choices ++ "\n          </choiceInteraction>\n        </itemBody>\n"

/-- Template `ITEM_BODY_CHOICE`, lines 95-97. -/
def ITEM_BODY_CHOICE (ident choice_html_xml : String) : String :=
  "            <simpleChoice identifier=\"" ++ ident ++ "\" fixed=\"false\">" ++ choice_html_xml ++ "</simpleChoice>\n"

/-- Template `ITEM_BODY_SHORTANS`, lines 99-104. -/
def ITEM_BODY_SHORTANS (question_html_xml : String) : String :=
  "        <itemBody>\n          <p>" ++ question_html_xml ++ "</p>\n          <textEntryInteraction responseIdentifier=\"RESPONSE\" expectedLength=\"50\"/>\n        </itemBody>\n"

/-- Template `ITEM_BODY_ESSAY`, lines 106-111. -/
def ITEM_BODY_ESSAY (question_html_xml : String) : String :=
  "        <itemBody>\n          <p>" ++ question_html_xml ++ "</p>\n          <extendedTextInteraction responseIdentifier=\"RESPONSE\" expectedLength=\"1000\"/>\n        </itemBody>\n"

/-- Template `ITEM_BODY_UPLOAD`, lines 113-118. -/
def ITEM_BODY_UPLOAD (question_html_xml : String) : String :=
  "        <itemBody>\n          <p>" ++ question_html_xml ++ "</p>\n          <uploadInteraction responseIdentifier=\"RESPONSE\"/>\n        </itemBody>\n"

/-- Template `ITEM_BODY_NUM`, lines 120-125. -/
def ITEM_BODY_NUM (question_html_xml : String) : String :=
  "        <itemBody>\n          <p>" ++ question_html_xml ++ "</p>\n          <textEntryInteraction responseIdentifier=\"RESPONSE\" baseType=\"float\" expectedLength=\"20\"/>\n        </itemBody>\n"

/-- Template `RESPONSE_PROCESSING_MCTF`, lines 127-147: the condition
compares the RESPONSE variable with the declared correct response. -/
def RESPONSE_PROCESSING_MCTF (points_possible correct_feedback incorrect_feedback general_feedback : String) : String :=
  "        <responseProcessing>\n          <responseCondition>\n            <responseIf>\n              <match>\n                <variable identifier=\"RESPONSE\"/>\n                <correct identifier=\"RESPONSE\"/>\n              </match>\n              <setOutcomeValue identifier=\"SCORE\">\n                <sum>\n                  <variable identifier=\"SCORE\"/>\n                  <baseValue baseType=\"float\">" ++ points_possible ++ "</baseValue>\n                </sum>\n              </setOutcomeValue>\n" ++ correct_feedback ++ "\n            </responseIf>\n" ++ incorrect_feedback ++ "\n" ++ general_feedback ++ "\n          </responseCondition>\n        </responseProcessing>\n"

/-- Template `RESPONSE_PROCESSING_MULTANS`, lines 149-168: a
conjunction of per-correct-choice match conditions. -/
def RESPONSE_PROCESSING_MULTANS (match_conditions points_possible correct_feedback incorrect_feedback general_feedback : String) : String :=
  "        <responseProcessing>\n          <responseCondition>\n            <responseIf>\n              <and>\n" ++ match_conditions ++ "\n              </and>\n              <setOutcomeValue identifier=\"SCORE\">\n                <sum>\n                  <variable identifier=\"SCORE\"/>\n                  <baseValue baseType=\"float\">" ++ points_possible ++ "</baseValue>\n                </sum>\n              </setOutcomeValue>\n" ++ correct_feedback ++ "\n            </responseIf>\n" ++ incorrect_feedback ++ "\n" ++ general_feedback ++ "\n          </responseCondition>\n        </responseProcessing>\n"

/-- Template `RESPONSE_PROCESSING_SHORTANS`, lines 170-189: a
disjunction of per-accepted-answer match conditions. -/
def RESPONSE_PROCESSING_SHORTANS (varequal_conditions points_possible correct_feedback incorrect_feedback general_feedback : String) : String :=
  "        <responseProcessing>\n          <responseCondition>\n            <responseIf>\n              <or>\n" ++ varequal_conditions ++ "\n              </or>\n              <setOutcomeValue identifier=\"SCORE\">\n                <sum>\n                  <variable identifier=\"SCORE\"/>\n                  <baseValue baseType=\"float\">" ++ points_possible ++ "</baseValue>\n                </sum>\n              </setOutcomeValue>\n" ++ correct_feedback ++ "\n            </responseIf>\n" ++ incorrect_feedback ++ "\n" ++ general_feedback ++ "\n          </responseCondition>\n        </responseProcessing>\n"

/-- Template `RESPONSE_PROCESSING_NUM`, lines 191-217: the condition
is `RESPONSE >= num_min AND RESPONSE <= num_max`. -/
def RESPONSE_PROCESSING_NUM (num_min num_max points_possible correct_feedback incorrect_feedback general_feedback : String) : String :=
  "        <responseProcessing>\n          <responseCondition>\n            <responseIf>\n              <and>\n                <gte>\n                  <variable identifier=\"RESPONSE\"/>\n                  <baseValue baseType=\"float\">" ++ num_min ++ "</baseValue>\n                </gte>\n                <lte>\n                  <variable identifier=\"RESPONSE\"/>\n                  <baseValue baseType=\"float\">" ++ num_max ++ "</baseValue>\n                </lte>\n              </and>\n              <setOutcomeValue identifier=\"SCORE\">\n                <sum>\n                  <variable identifier=\"SCORE\"/>\n                  <baseValue baseType=\"float\">" ++ points_possible ++ "</baseValue>\n                </sum>\n              </setOutcomeValue>\n" ++ correct_feedback ++ "\n            </responseIf>\n" ++ incorrect_feedback ++ "\n" ++ general_feedback ++ "\n          </responseCondition>\n        </responseProcessing>\n"

/-- Template `RESPONSE_PROCESSING_ESSAY`, lines 219-233: only the
general-feedback slot exists; the score is set to 0 when the response
is null. -/
def RESPONSE_PROCESSING_ESSAY (general_feedback : String) : String :=
  "        <responseProcessing>\n          <responseCondition>\n            <responseIf>\n              <isNull>\n                <variable identifier=\"RESPONSE\"/>\n              </isNull>\n              <setOutcomeValue identifier=\"SCORE\">\n                <baseValue baseType=\"float\">0</baseValue>\n              </setOutcomeValue>\n            </responseIf>\n" ++ general_feedback ++ "\n          </responseCondition>\n        </responseProcessing>\n"

/-- Line 235: `RESPONSE_PROCESSING_UPLOAD = RESPONSE_PROCESSING_ESSAY`. -/
def RESPONSE_PROCESSING_UPLOAD : String → String := RESPONSE_PROCESSING_ESSAY

/-- Template `MATCH_CONDITION`, lines 237-242. -/
def MATCH_CONDITION (ident : String) : String :=
  "                <match>\n                  <variable identifier=\"RESPONSE\"/>\n                  <baseValue baseType=\"identifier\">" ++ ident ++ "</baseValue>\n                </match>\n"

/-- Template `VARQUAL_CONDITION`, lines 244-249. -/
def VARQUAL_CONDITION (answer_xml : String) : String :=
  "                <match>\n                  <variable identifier=\"RESPONSE\"/>\n                  <baseValue baseType=\"string\">" ++ answer_xml ++ "</baseValue>\n                </match>\n"

/-- Template `FEEDBACK_CORRECT`, lines 251-255 (inside the responseIf). -/
def FEEDBACK_CORRECT (feedback : String) : String :=
  "              <setOutcomeValue identifier=\"FEEDBACK\">\n                <baseValue baseType=\"string\">" ++ feedback ++ "</baseValue>\n              </setOutcomeValue>\n"

/-- Template `FEEDBACK_INCORRECT`, lines 257-263 (a responseElse). -/
def FEEDBACK_INCORRECT (feedback : String) : String :=
  "            <responseElse>\n              <setOutcomeValue identifier=\"FEEDBACK\">\n                <baseValue baseType=\"string\">" ++ feedback ++ "</baseValue>\n              </setOutcomeValue>\n            </responseElse>\n"

/-- Template `FEEDBACK_GENERAL`, lines 265-271 (a responseElse). -/
def FEEDBACK_GENERAL (feedback : String) : String :=
  "            <responseElse>\n              <setOutcomeValue identifier=\"FEEDBACK\">\n                <baseValue baseType=\"string\">" ++ feedback ++ "</baseValue>\n              </setOutcomeValue>\n            </responseElse>\n"

/-- The data of an emitted `responseDeclaration`: base type,
cardinality, and the list of `<value>` payloads of its
`<correctResponse>` children. -/
structure RespDecl where
  base_type : String
  cardinality : String
  values : List String
  deriving DecidableEq, Repr

/-- Lines 332-358: the per-type response-declaration data.  For
true/false, multiple-choice and multiple-answers questions the emitted
correct-response values are the *bare* `choice.id` of each correct
choice (line 338); for short answer every `choice_xml` string; for
numerical the pre-rendered exact value when present, otherwise the
pre-rendered minimum (lines 350-353); essay, upload and unrecognized
types fall to the final else branch (lines 354-358). -/
def response_declaration (q : Question) : RespDecl :=
  if q.type = "true_false_question" ∨ q.type = "multiple_choice_question" ∨ q.type = "multiple_answers_question" then
    { base_type := "identifier"
      cardinality := if q.type = "multiple_answers_question" then "multiple" else "single"
      values := (q.choices.filter (fun c => c.correct)).map (fun c => c.id) }
  else if q.type = "short_answer_question" then
    { base_type := "string"
      cardinality := "single"
      values := q.choices.map (fun c => c.choice_xml) }
  else if q.type = "numerical_question" then
    { base_type := "float"
      cardinality := "single"
      values := [match q.numerical_exact with
                 | some _ => q.numerical_exact_html_xml
                 | none => q.numerical_min_html_xml] }
  else
    { base_type := "string", cardinality := "single", values := [] }

/-- Lines 335-339, 343-346, 350-353: rendering of the declaration body,
one `<correctResponse><value>...</value></correctResponse>` line per
value, joined by newlines (the empty list renders as the empty
string, matching line 339 in its else branch). -/
def response_declaration_body (d : RespDecl) : String :=
  String.intercalate "\n"
    (d.values.map (fun v => "            <correctResponse><value>" ++ v ++ "</value></correctResponse>"))

/-- Lines 296-314: a `TextRegion` entry compiles to an item with just
the text, a SCORE outcome declaration defaulting to 0, an *empty*
response condition, and no response declaration.  The Python code
appends these strings without newline separators. -/
def text_region_xml (tr : TextRegion) : String :=
  "      <assessmentItem identifier=\"qtimaker_text_" ++ tr.id ++ "\" title=\"" ++ tr.title_xml ++ "\" adaptive=\"false\" timeDependent=\"false\">" ++
  "        <itemBody>" ++
  "          <p>" ++ tr.text_html_xml ++ "</p>" ++
  "        </itemBody>" ++
  "        <outcomeDeclaration identifier=\"SCORE\" baseType=\"float\" cardinality=\"single\">" ++
  "          <defaultValue>" ++
  "            <value>0</value>" ++
  "          </defaultValue>" ++
  "        </outcomeDeclaration>" ++
  "        <responseProcessing>" ++
  "          <responseCondition/>" ++
  "        </responseProcessing>" ++
  "      </assessmentItem>"

/-- Lines 395-404: the three rendered feedback blocks (correct,
incorrect, general), each empty unless the corresponding raw feedback
attribute is set. -/
def feedback_blocks (q : Question) : String × String × String :=
  ( if q.correct_feedback_raw.isSome then FEEDBACK_CORRECT q.correct_feedback_html_xml else ""
  , if q.incorrect_feedback_raw.isSome then FEEDBACK_INCORRECT q.incorrect_feedback_html_xml else ""
  , if q.feedback_raw.isSome then FEEDBACK_GENERAL q.feedback_html_xml else "" )

/-- Lines 366-392: the item body dispatch.  Choice identifiers are
namespaced as `qtimaker_choice_` ++ the model id (lines 369, 376); a
multiple-answers interaction gets `maxChoices` equal to the number of
choices (line 381); an unrecognized type raises `ValueError`
(line 392). -/
def body_xml (shuffle : String) (q : Question) : Except PyExc String :=
  if q.type = "true_false_question" ∨ q.type = "multiple_choice_question" then
    .ok (ITEM_BODY_MCTF q.question_html_xml shuffle
      (String.intercalate "\n"
        (q.choices.map (fun c => ITEM_BODY_CHOICE ("qtimaker_choice_" ++ c.id) c.choice_html_xml))))
  else if q.type = "multiple_answers_question" then
    .ok (ITEM_BODY_MULTANS q.question_html_xml shuffle (toString q.choices.length)
      (String.intercalate "\n"
        (q.choices.map (fun c => ITEM_BODY_CHOICE ("qtimaker_choice_" ++ c.id) c.choice_html_xml))))
  else if q.type = "short_answer_question" then
    .ok (ITEM_BODY_SHORTANS q.question_html_xml)
  else if q.type = "numerical_question" then
    .ok (ITEM_BODY_NUM q.question_html_xml)
  else if q.type = "essay_question" then
    .ok (ITEM_BODY_ESSAY q.question_html_xml)
  else if q.type = "file_upload_question" then
    .ok (ITEM_BODY_UPLOAD q.question_html_xml)
  else
    .error .valueError

/-- Lines 394-442: the response-processing dispatch.  Multiple-answers
match conditions are emitted only for correct choices and use the
namespaced choice identifier (lines 412-415); short-answer conditions
use the raw `choice_xml` strings (lines 421-424); numerical conditions
splice the pre-rendered min and max (line 431); essay and upload use
the null-check template with only the general-feedback slot (lines
437-440); an unrecognized type raises `ValueError` (line 442). -/
def rp_xml (q : Question) : Except PyExc String :=
  let fb := feedback_blocks q
  if q.type = "true_false_question" ∨ q.type = "multiple_choice_question" then
    .ok (RESPONSE_PROCESSING_MCTF (toString q.points_possible) fb.1 fb.2.1 fb.2.2)
  else if q.type = "multiple_answers_question" then
    .ok (RESPONSE_PROCESSING_MULTANS
      (String.intercalate "\n"
        ((q.choices.filter (fun c => c.correct)).map
          (fun c => MATCH_CONDITION ("qtimaker_choice_" ++ c.id))))
      (toString q.points_possible) fb.1 fb.2.1 fb.2.2)
  else if q.type = "short_answer_question" then
    .ok (RESPONSE_PROCESSING_SHORTANS
      (String.intercalate "\n" (q.choices.map (fun c => VARQUAL_CONDITION c.choice_xml)))
      (toString q.points_possible) fb.1 fb.2.1 fb.2.2)
  else if q.type = "numerical_question" then
    .ok (RESPONSE_PROCESSING_NUM q.numerical_min_html_xml q.numerical_max_html_xml
      (toString q.points_possible) fb.1 fb.2.1 fb.2.2)
  else if q.type = "essay_question" then
    .ok (RESPONSE_PROCESSING_ESSAY fb.2.2)
  else if q.type = "file_upload_question" then
    .ok (RESPONSE_PROCESSING_UPLOAD fb.2.2)
  else
    .error .valueError

/-- Lines 328-444: one `Question` entry.  The item identifier is
`qtimaker_question_` ++ the model id (line 328); the metadata block
(response declaration plus SCORE/MAXSCORE outcome declarations) is
emitted for every type except essay and upload (lines 360-364). -/
def question_xml (shuffle : String) (q : Question) : Except PyExc String := do
  let d := response_declaration q
  let metadata :=
    if ¬ (q.type = "essay_question" ∨ q.type = "file_upload_question") then
      ITEM_METADATA d.base_type d.cardinality (response_declaration_body d) (toString q.points_possible)
    else ""
  let body ← body_xml shuffle q
  let rp ← rp_xml q
  .ok (START_ITEM ("qtimaker_question_" ++ q.id) q.title_xml ++ metadata ++ body ++ rp ++ END_ITEM)

/-- Lines 296-444: one entry of `questions_and_delims`.  Group
sections are identified as `qtimaker_group_` ++ the model id
(line 316). -/
def entry_xml (shuffle : String) : QuestionOrDelim → Except PyExc String
  | .textRegion tr => .ok (text_region_xml tr)
  | .groupStart gs =>
      .ok (GROUP_START ("qtimaker_group_" ++ gs.id) gs.title_xml
        (toString gs.pick) (toString gs.points_per_question))
  | .groupEnd _ => .ok GROUP_END
  | .question q => question_xml shuffle q

/-- The entry loop of lines 296-444, accumulating the emitted strings
in order; a raise anywhere aborts the whole generation. -/
def entries_xml (shuffle : String) : List QuestionOrDelim → Except PyExc (List String)
  | [] => .ok []
  | x :: xs => do
      let s ← entry_xml shuffle x
      let rest ← entries_xml shuffle xs
      .ok (s :: rest)

/-- Lines 280-448: the whole generator.  The quiz-wide shuffle flag of
line 367 is constant across the loop and is computed once here; the
final output is the concatenation of the header, all emitted entry
strings, and the footer carrying the MAXSCORE default (line 446). -/
def assessment_v2 (quiz : Quiz) (assessment_identifier : String) (title_xml : String) : Except PyExc String := do
  let items ← entries_xml (if quiz.shuffle_answers_xml = "true" then "true" else "false")
    quiz.questions_and_delims
  .ok (BEFORE_ITEMS assessment_identifier title_xml ++ String.join items
       ++ AFTER_ITEMS (toString (points_possible_total quiz)))

/-! Structural view of the emitted response-processing XML

The response-processing templates are fixed XML texts; the inductive
types below transcribe their element structure so that the scoring
semantics the spec talks about can be stated.  Each constructor
corresponds to one of the fixed condition fragments of the templates
(line references as in the template definitions above).  The rational
payloads of `gteBound`/`lteBound` denote the numeric values whose
pre-rendered forms (`numerical_min_html_xml` / `numerical_max_html_xml`)
are spliced into `RESPONSE_PROCESSING_NUM`. -/

/-- Atomic condition fragments occurring in the emitted
`<responseIf>` blocks. -/
inductive BaseCond where
  | matchCorrect
  | matchIdent (ident : String)
  | matchString (s : String)
  | gteBound (v : ℚ)
  | lteBound (v : ℚ)
  | isNullResponse
  deriving DecidableEq, Repr

/-- Condition expressions of the emitted `<responseIf>` blocks.  The
fixed templates combine atoms at most one level deep: a single atom
(`RESPONSE_PROCESSING_MCTF`, `RESPONSE_PROCESSING_ESSAY`), an `<and>`
of atoms (`RESPONSE_PROCESSING_MULTANS`, `RESPONSE_PROCESSING_NUM`),
or an `<or>` of atoms (`RESPONSE_PROCESSING_SHORTANS`). -/
inductive Cond where
  | base (b : BaseCond)
  | allOf (cs : List BaseCond)
  | anyOf (cs : List BaseCond)
  deriving DecidableEq, Repr

/-- Actions occurring in the emitted `<setOutcomeValue>` blocks:
`addScore p` is the `SCORE := SCORE + p` sum of the scored templates,
`setScoreZero` the `SCORE := 0` of the essay/upload template, and
`setFeedback s` the `FEEDBACK := s` of the feedback templates. -/
inductive RPAction where
  | addScore (points : Nat)
  | setScoreZero
  | setFeedback (s : String)
  deriving DecidableEq, Repr

/-- An emitted `<responseProcessing>` block: either the empty
`<responseCondition/>` of a text region (lines 310-312), or a
`responseCondition` with one `responseIf` (condition plus actions) and
a list of `responseElse` branches (each a list of actions). -/
inductive RP where
  | emptyCondition
  | condition (cond : Cond) (if_actions : List RPAction) (else_branches : List (List RPAction))
  deriving DecidableEq, Repr

/-- Lines 395-404 in structural form: the optional correct-feedback
action and the optional incorrect/general else-branches. -/
def feedback_actions (q : Question) : List RPAction × List (List RPAction) × List (List RPAction) :=
  ( if q.correct_feedback_raw.isSome then [.setFeedback q.correct_feedback_html_xml] else []
  , if q.incorrect_feedback_raw.isSome then [[.setFeedback q.incorrect_feedback_html_xml]] else []
  , if q.feedback_raw.isSome then [[.setFeedback q.feedback_html_xml]] else [] )

/-- Lines 394-442 in structural form: the response-processing block
emitted for a question, with the same dispatch, the same namespaced
match-condition identifiers (line 415), the same accepted-answer
strings (line 424), the numeric bounds of `RESPONSE_PROCESSING_NUM`
(line 431), and the same `ValueError` on an unrecognized type
(line 442). -/
def question_rp (q : Question) : Except PyExc RP :=
  let fb := feedback_actions q
  if q.type = "true_false_question" ∨ q.type = "multiple_choice_question" then
    .ok (.condition (.base .matchCorrect) (.addScore q.points_possible :: fb.1) (fb.2.1 ++ fb.2.2))
  else if q.type = "multiple_answers_question" then
    .ok (.condition
      (.allOf ((q.choices.filter (fun c => c.correct)).map
        (fun c => .matchIdent ("qtimaker_choice_" ++ c.id))))
      (.addScore q.points_possible :: fb.1) (fb.2.1 ++ fb.2.2))
  else if q.type = "short_answer_question" then
    .ok (.condition
      (.anyOf (q.choices.map (fun c => .matchString c.choice_xml)))
      (.addScore q.points_possible :: fb.1) (fb.2.1 ++ fb.2.2))
  else if q.type = "numerical_question" then
    .ok (.condition (.allOf [.gteBound q.numerical_min, .lteBound q.numerical_max])
      (.addScore q.points_possible :: fb.1) (fb.2.1 ++ fb.2.2))
  else if q.type = "essay_question" then
    .ok (.condition (.base .isNullResponse) [.setScoreZero] fb.2.2)
  else if q.type = "file_upload_question" then
    .ok (.condition (.base .isNullResponse) [.setScoreZero] fb.2.2)
  else
    .error .valueError

/-- A submitted response: a single identifier, a set of identifiers
(multiple cardinality), a string, a number, or no response at all. -/
inductive Response where
  | rIdent (s : String)
  | rIdentSet (ss : List String)
  | rString (s : String)
  | rNum (v : ℚ)
  | rNull
  deriving DecidableEq, Repr

/-- QTI evaluation of the emitted condition fragments against a
submitted response.  `matchCorrect` compares the response with the
values declared in the item `<correctResponse>` elements
(`correct_values`); `matchIdent` against a multiple-cardinality
response tests membership of the identifier in the submitted set (the
reading the spec gives the multiple-answers conjunction: "ALL correct
choice ids must be present in the response"); `gteBound`/`lteBound`
are the numeric comparisons `RESPONSE >= v` / `RESPONSE <= v`. -/
def evalBase (correct_values : List String) : BaseCond → Response → Bool
  | .matchCorrect, .rIdent s => correct_values.contains s
  | .matchCorrect, _ => false
  | .matchIdent i, .rIdent s => s = i
  | .matchIdent i, .rIdentSet ss => ss.contains i
  | .matchIdent _, _ => false
  | .matchString a, .rString s => s = a
  | .matchString _, _ => false
  | .gteBound v, .rNum r => v ≤ r
  | .gteBound _, _ => false
  | .lteBound v, .rNum r => r ≤ v
  | .lteBound _, _ => false
  | .isNullResponse, .rNull => true
  | .isNullResponse, _ => false

/-- Evaluation of a full condition: an `<and>` holds when every atom
holds, an `<or>` when some atom holds. -/
def evalCond (correct_values : List String) : Cond → Response → Bool
  | .base b, r => evalBase correct_values b r
  | .allOf cs, r => cs.all (fun c => evalBase correct_values c r)
  | .anyOf cs, r => cs.any (fun c => evalBase correct_values c r)

/-- Whether the `responseIf` branch of an emitted response-processing
block fires for a given response (the empty condition of a text region
never fires). -/
def rp_if_fires (correct_values : List String) : RP → Response → Bool
  | .emptyCondition, _ => false
  | .condition c _ _, r => evalCond correct_values c r

/-- All feedback strings assigned anywhere in a response-processing
block (responseIf actions and every responseElse branch). -/
def rp_feedback_strings : RP → List String
  | .emptyCondition => []
  | .condition _ if_actions else_branches =>
      ((if_actions ++ else_branches.flatten).filterMap
        (fun a => match a with
                  | .setFeedback s => some s
                  | _ => none))

/-- All score-modifying actions anywhere in a response-processing
block. -/
def rp_score_actions : RP → List RPAction
  | .emptyCondition => []
  | .condition _ if_actions else_branches =>
      ((if_actions ++ else_branches.flatten).filter
        (fun a => match a with
                  | .setFeedback _ => false
                  | _ => true))

/-- The else-branches of a response-processing block. -/
def rp_else_branches : RP → List (List RPAction)
  | .emptyCondition => []
  | .condition _ _ else_branches => else_branches

/-- Structural view of one generated item: its emitted identifier, the
metadata declaration when one is emitted (lines 360-364), the
namespaced choice identifiers of its interaction (lines 369, 376), the
`maxChoices` attribute when the interaction carries one (lines 80,
381), and its response-processing block. -/
structure GenItem where
  identifier : String
  metadata : Option RespDecl
  body_choice_identifiers : List String
  max_choices : Option Nat
  rp : RP
  deriving DecidableEq, Repr

/-- Lines 296-314 in structural form: the text-region item carries no
response declaration, no interaction, and the empty response
condition. -/
def text_region_item (tr : TextRegion) : GenItem :=
  { identifier := "qtimaker_text_" ++ tr.id
    metadata := none
    body_choice_identifiers := []
    max_choices := none
    rp := .emptyCondition }

/-- Lines 328-444 in structural form: one generated question item.
The `maxChoices` attribute is the fixed 1 of `ITEM_BODY_MCTF` for
true/false and multiple choice and the number of choices for multiple
answers (line 381); the body dispatch raises `ValueError` on an
unrecognized type (line 392) before the response-processing dispatch
runs. -/
def question_item (q : Question) : Except PyExc GenItem := do
  let metadata :=
    if ¬ (q.type = "essay_question" ∨ q.type = "file_upload_question") then
      some (response_declaration q)
    else none
  let choice_idents :=
    if q.type = "true_false_question" ∨ q.type = "multiple_choice_question" ∨ q.type = "multiple_answers_question" then
      q.choices.map (fun c => "qtimaker_choice_" ++ c.id)
    else []
  let mc : Option Nat ←
    if q.type = "true_false_question" ∨ q.type = "multiple_choice_question" then
      .ok (some 1)
    else if q.type = "multiple_answers_question" then
      .ok (some q.choices.length)
    else if q.type = "short_answer_question" ∨ q.type = "numerical_question" ∨ q.type = "essay_question" ∨ q.type = "file_upload_question" then
      .ok none
    else
      .error .valueError
  let rp ← question_rp q
  .ok { identifier := "qtimaker_question_" ++ q.id
        metadata := metadata
        body_choice_identifiers := choice_idents
        max_choices := mc
        rp := rp }

/-- The specification numerical scoring rule, written from the
spec words for comparison with the generated condition (spec §4.3:
"response numerically within the exact value or inclusive [min,max]
range"). -/
def spec_numerical_accepts (q : Question) (r : ℚ) : Bool :=
  match q.numerical_exact with
  | some e => decide (r = e)
  | none => decide (q.numerical_min ≤ r ∧ r ≤ q.numerical_max)

/-! Supporting lemmas -/

/-- The accumulation loop of lines 289-294 splits into the sum of the
per-question points and the sum of the per-group `pick ×
points_per_question` contributions. -/
lemma foldl_points_step (l : List QuestionOrDelim) (a : Nat) :
    l.foldl points_step a = a + question_points_sum l + group_points_sum l := by
  induction l generalizing a with
  | nil => simp [question_points_sum, group_points_sum]
  | cons x xs ih =>
      cases x <;>
        simp [points_step, question_points_sum, group_points_sum, ih] <;> ring

/-- In the `Except` entry loop, one failing entry aborts the whole
generation (the Python `raise` escaping the loop of lines 296-444). -/
lemma entries_xml_error (shuffle : String) (l : List QuestionOrDelim) (x : QuestionOrDelim)
    (hmem : x ∈ l) (hx : entry_xml shuffle x = .error .valueError) :
    entries_xml shuffle l = .error .valueError := by
  induction l with
  | nil => cases hmem
  | cons a as ih =>
      simp only [entries_xml]
      rcases List.mem_cons.mp hmem with h | h
      · subst h
        rw [hx]
        rfl
      · cases ha : entry_xml shuffle a with
        | error e => cases e; rfl
        | ok s =>
            show Except.bind (entries_xml shuffle as) _ = _
            rw [ih h]
            rfl

/-! Example inputs -/

/-- A question record with neutral field values, specialized below per
example. -/
def base_question : Question :=
  { id := "q", type := "multiple_choice_question", title_xml := "T", question_html_xml := "Q?"
    points_possible := 1, choices := []
    numerical_min := 0, numerical_max := 0, numerical_exact := none
    numerical_min_html_xml := "0", numerical_max_html_xml := "0", numerical_exact_html_xml := ""
    correct_feedback_raw := none, correct_feedback_html_xml := ""
    incorrect_feedback_raw := none, incorrect_feedback_html_xml := ""
    feedback_raw := none, feedback_html_xml := "" }

/-- The group of the spec own example: `pick = 3`,
`points_per_question = 2`. -/
def c1_group : Group :=
  { id := "g1", title_xml := "G", pick := 3, points_per_question := 2 }

/-- A one-point question used five times inside the example group. -/
def c1_question (n : String) : Question :=
  { base_question with id := n }

/-- The spec example quiz: a group with `pick = 3`,
`points_per_question = 2`, wrapping five one-point questions. -/
def c1_quiz : Quiz :=
  { questions_and_delims :=
      [.groupStart c1_group,
       .question (c1_question "1"), .question (c1_question "2"), .question (c1_question "3"),
       .question (c1_question "4"), .question (c1_question "5"),
       .groupEnd c1_group]
    shuffle_answers_xml := "false" }

/-- A multiple-choice question whose correct choice has model id "1". -/
def c2_question : Question :=
  { base_question with
    id := "Q1",
    choices := [ { id := "1", choice_xml := "A", choice_html_xml := "A", correct := true },
                 { id := "2", choice_xml := "B", choice_html_xml := "B", correct := false } ] }

/-- A multiple-choice question whose correct choice has model id "1"
(instance for the response-processing claim). -/
def c3_question : Question :=
  { base_question with
    id := "Q3",
    choices := [ { id := "1", choice_xml := "A", choice_html_xml := "A", correct := true },
                 { id := "2", choice_xml := "B", choice_html_xml := "B", correct := false } ] }

/-! Claims -/

/-- C1.  The spec example quiz: the generator MAXSCORE default
(lines 288-294, spliced at line 446) is 11 — the five enclosed
one-point questions are counted on top of the group
`pick × points_per_question = 6` — while the claim formula (sum over
standalone questions plus `pick × points_per_question` per group,
`spec_max_score`) gives 6: a group does *not* contribute exactly 6
points independent of the enclosed questions. -/
theorem c1_group_points_double_count :
    points_possible_total c1_quiz = 11 ∧ spec_max_score c1_quiz = 6 ∧
      points_possible_total c1_quiz ≠ spec_max_score c1_quiz := by
  refine ⟨rfl, rfl, ?_⟩
  decide

/-- C2.  Evaluating the generator on a multiple-choice question whose
correct choice has model id "1": the emitted correct-response value
(line 338) is the bare model id "1", which is not namespaced — it
differs from every identifier of the generated item body, where the
same choice is identified as "qtimaker_choice_1" (line 369). -/
theorem c2_correct_response_value_not_namespaced :
    (response_declaration c2_question).values = ["1"] ∧
    (c2_question.choices.map (fun c => c.id)) = ["1", "2"] ∧
    (question_item c2_question).map (fun it => it.body_choice_identifiers)
      = .ok ["qtimaker_choice_1", "qtimaker_choice_2"] ∧
    "1" ∉ ["qtimaker_choice_1", "qtimaker_choice_2"] := by
  refine ⟨rfl, rfl, rfl, ?_⟩
  decide

/-- C3.  On the same shape of input, the declared correct-response
value ("1") is not the identifier under which the correct choice
appears in the item body ("qtimaker_choice_1"), and the emitted
match-with-correct condition (RESPONSE_PROCESSING_MCTF) fires on the
bare id "1" but *not* on the body identifier of the correct choice:
submitting the correct choice as the item body identifies it is not
awarded. -/
theorem c3_correct_response_vs_body_identifier :
    (response_declaration c3_question).values = ["1"] ∧
    (question_item c3_question).map (fun it => it.body_choice_identifiers.contains "1") = .ok false ∧
    (question_item c3_question).map (fun it => it.body_choice_identifiers.contains "qtimaker_choice_1") = .ok true ∧
    (question_rp c3_question).map
        (fun rp => rp_if_fires (response_declaration c3_question).values rp (.rIdent "qtimaker_choice_1"))
      = .ok false ∧
    (question_rp c3_question).map
        (fun rp => rp_if_fires (response_declaration c3_question).values rp (.rIdent "1"))
      = .ok true := by
  exact ⟨rfl, rfl, rfl, rfl, rfl⟩

/-- Evaluating the conjunction of per-correct-choice match conditions
against a multiple-cardinality response amounts to: every correct
choice namespaced identifier is a member of the response set. -/
lemma all_matchIdent_eq_decide (vals : List String) (choices : List Choice) (ss : List String) :
    ((choices.filter (fun c => c.correct)).map
        (fun c => BaseCond.matchIdent ("qtimaker_choice_" ++ c.id))).all
      (fun b => evalBase vals b (.rIdentSet ss))
    = decide (∀ c ∈ choices, c.correct = true → ("qtimaker_choice_" ++ c.id) ∈ ss) := by
  rw [Bool.eq_iff_iff, decide_eq_true_eq, List.all_eq_true]
  constructor
  · intro h c hc hcorr
    have hb := h (BaseCond.matchIdent ("qtimaker_choice_" ++ c.id))
      (List.mem_map.mpr ⟨c, List.mem_filter.mpr ⟨hc, by simp [hcorr]⟩, rfl⟩)
    simpa [evalBase, List.elem_iff] using hb
  · intro h b hb
    rcases List.mem_map.mp hb with ⟨c, hc, rfl⟩
    rcases List.mem_filter.mp hc with ⟨hmem, hcorr⟩
    simpa [evalBase, List.elem_iff] using h c hmem (by simpa using hcorr)

/-- The spec multiple-answers example: correct choices b and d out
of a, b, c, d. -/
def c4_question : Question :=
  { base_question with
    id := "Q4", type := "multiple_answers_question",
    choices := [ { id := "a", choice_xml := "A", choice_html_xml := "A", correct := false },
                 { id := "b", choice_xml := "B", choice_html_xml := "B", correct := true },
                 { id := "c", choice_xml := "C", choice_html_xml := "C", correct := false },
                 { id := "d", choice_xml := "D", choice_html_xml := "D", correct := true } ] }

/-- C4, counterexample.  On the spec own example (correct choices b
and d out of a, b, c, d), the generated conjunction also fires for the
*superset* response a, b, d: the emitted condition does not require
the response set to equal the correct set exactly. -/
theorem c4_exact_set_not_required :
    (question_rp c4_question).map
        (fun rp => rp_if_fires (response_declaration c4_question).values rp
          (.rIdentSet ["qtimaker_choice_a", "qtimaker_choice_b", "qtimaker_choice_d"]))
      = .ok true ∧
    ((c4_question.choices.filter (fun c => c.correct)).map (fun c => "qtimaker_choice_" ++ c.id))
      = ["qtimaker_choice_b", "qtimaker_choice_d"] ∧
    "qtimaker_choice_a" ∉ ["qtimaker_choice_b", "qtimaker_choice_d"] := by
  refine ⟨rfl, rfl, ?_⟩
  decide

/-- C4, amended.  For a multiple-answers question the generated
response condition (lines 411-420) fires exactly when every correct
choice namespaced identifier is present in the submitted response
set — supersets included, no exact-set test — and the interaction
`maxChoices` equals the total number of choices (line 381). -/
theorem c4_all_correct_present_awards (q : Question) (ss : List String)
    (hq : q.type = "multiple_answers_question") :
    (question_rp q).map (fun rp => rp_if_fires (response_declaration q).values rp (.rIdentSet ss))
      = .ok (decide (∀ c ∈ q.choices, c.correct = true → ("qtimaker_choice_" ++ c.id) ∈ ss)) ∧
    (question_item q).map (fun it => it.max_choices) = .ok (some q.choices.length) := by
  constructor
  · simp [question_rp, hq, feedback_actions, Except.map, rp_if_fires, evalCond,
      all_matchIdent_eq_decide]
  · simp only [question_item, question_rp, hq, feedback_actions]
    norm_num
    rfl

/-- C4, witness: the amended statement evaluated on the example
question and the response containing only choice b identifier. -/
theorem c4_all_correct_present_awards_witness :
    (question_rp c4_question).map
        (fun rp => rp_if_fires (response_declaration c4_question).values rp
          (.rIdentSet ["qtimaker_choice_b"]))
      = .ok (decide (∀ c ∈ c4_question.choices, c.correct = true →
          ("qtimaker_choice_" ++ c.id) ∈ ["qtimaker_choice_b"])) ∧
    (question_item c4_question).map (fun it => it.max_choices)
      = .ok (some c4_question.choices.length) :=
  c4_all_correct_present_awards c4_question ["qtimaker_choice_b"] rfl

/-- An essay question with both the incorrect-feedback and the
general-feedback channel set. -/
def c5_essay_question : Question :=
  { base_question with
    id := "Q5e", type := "essay_question",
    incorrect_feedback_raw := some "i", incorrect_feedback_html_xml := "IF",
    feedback_raw := some "g", feedback_html_xml := "GF" }

/-- C5, counterexample.  For an essay question with both the
incorrect-feedback and the general-feedback string set, the generated
response processing (lines 437-438, template
`RESPONSE_PROCESSING_ESSAY`) emits only the general feedback: the
incorrect-feedback string is dropped entirely rather than emitted as
an else-branch, so the claim "for every question" fails. -/
theorem c5_essay_drops_incorrect_feedback :
    c5_essay_question.incorrect_feedback_raw = some "i" ∧
    c5_essay_question.feedback_raw = some "g" ∧
    c5_essay_question.incorrect_feedback_html_xml = "IF" ∧
    (question_rp c5_essay_question).map rp_else_branches = .ok [[.setFeedback "GF"]] ∧
    (question_rp c5_essay_question).map rp_feedback_strings = .ok ["GF"] ∧
    "IF" ∉ ["GF"] := by
  refine ⟨rfl, rfl, rfl, rfl, rfl, ?_⟩
  decide

/-- C5, amended.  For every question of a type whose
response-processing template carries the incorrect-feedback slot
(true/false, multiple choice, multiple answers, short answer,
numerical), when both the incorrect-feedback and the general-feedback
string are set, both are emitted as else-branches of the *same*
`responseCondition`, with identical structure — the
`FEEDBACK_INCORRECT` and `FEEDBACK_GENERAL` templates are the same
function — so only one of the two can take effect for a wrong
response. -/
theorem c5_shared_else_branch (q : Question) (i g : String)
    (hty : q.type = "true_false_question" ∨ q.type = "multiple_choice_question" ∨
      q.type = "multiple_answers_question" ∨ q.type = "short_answer_question" ∨
      q.type = "numerical_question")
    (hi : q.incorrect_feedback_raw = some i) (hg : q.feedback_raw = some g) :
    (question_rp q).map rp_else_branches
      = .ok [[.setFeedback q.incorrect_feedback_html_xml], [.setFeedback q.feedback_html_xml]] ∧
    FEEDBACK_INCORRECT = FEEDBACK_GENERAL := by
  refine ⟨?_, rfl⟩
  rcases hty with h | h | h | h | h <;>
    simp [question_rp, feedback_actions, h, hi, hg, rp_else_branches, Except.map]

/-- A true/false question with both the incorrect-feedback and the
general-feedback channel set. -/
def c5_tf_question : Question :=
  { base_question with
    id := "Q5t", type := "true_false_question",
    choices := [ { id := "t", choice_xml := "true", choice_html_xml := "true", correct := true },
                 { id := "f", choice_xml := "false", choice_html_xml := "false", correct := false } ],
    incorrect_feedback_raw := some "i", incorrect_feedback_html_xml := "IF",
    feedback_raw := some "g", feedback_html_xml := "GF" }

/-- C5, witness: the amended statement evaluated on a concrete
true/false question with both channels set. -/
theorem c5_shared_else_branch_witness :
    (question_rp c5_tf_question).map rp_else_branches
      = .ok [[.setFeedback c5_tf_question.incorrect_feedback_html_xml],
             [.setFeedback c5_tf_question.feedback_html_xml]] ∧
    FEEDBACK_INCORRECT = FEEDBACK_GENERAL :=
  c5_shared_else_branch c5_tf_question "i" "g" (Or.inl rfl) rfl rfl

/-- C6.  A `TextRegion` entry generates an item with no response
declaration (lines 300-313 emit none), an empty response condition
whose action set is empty — it never modifies SCORE and never fires —
and the entry contributes nothing to the MAXSCORE sum of lines
289-294. -/
theorem c6_text_region_inert (tr : TextRegion) (s : String) (pre post : List QuestionOrDelim) :
    (text_region_item tr).metadata = none ∧
    (text_region_item tr).rp = .emptyCondition ∧
    rp_score_actions (text_region_item tr).rp = [] ∧
    (∀ vals resp, rp_if_fires vals (text_region_item tr).rp resp = false) ∧
    points_possible_total ⟨pre ++ .textRegion tr :: post, s⟩
      = points_possible_total ⟨pre ++ post, s⟩ := by
  refine ⟨rfl, rfl, rfl, fun vals resp => rfl, ?_⟩
  simp [points_possible_total, List.foldl_append, points_step]

/-- C7.  For a numerical question, provided the model exact value —
when one is set — coincides with the min/max bounds the generator
splices into `RESPONSE_PROCESSING_NUM` (the relation `quiz.py`, absent
from the sources, establishes per the spec "either an exact value or
a [min,max] inclusive range"), the generated condition (lines 430-436)
fires exactly when the response is within the exact value or the
inclusive [min, max] range. -/
theorem c7_numerical_range_scoring (q : Question) (r : ℚ)
    (hty : q.type = "numerical_question")
    (hx : ∀ e, q.numerical_exact = some e → q.numerical_min = e ∧ q.numerical_max = e) :
    (question_rp q).map (fun rp => rp_if_fires (response_declaration q).values rp (.rNum r))
      = .ok (spec_numerical_accepts q r) := by
  have hrp : question_rp q = .ok (RP.condition
      (.allOf [.gteBound q.numerical_min, .lteBound q.numerical_max])
      (.addScore q.points_possible :: (feedback_actions q).1)
      ((feedback_actions q).2.1 ++ (feedback_actions q).2.2)) := by
    simp [question_rp, hty]
  rw [hrp]
  simp only [Except.map, rp_if_fires, evalCond, List.all_cons, List.all_nil, evalBase,
    Bool.and_true]
  refine congrArg Except.ok ?_
  cases hex : q.numerical_exact with
  | none =>
      rw [Bool.eq_iff_iff]
      simp [spec_numerical_accepts, hex]
  | some e =>
      obtain ⟨hmin, hmax⟩ := hx e hex
      rw [Bool.eq_iff_iff]
      simp only [spec_numerical_accepts, hex, hmin, hmax, Bool.and_eq_true, decide_eq_true_eq]
      constructor
      · rintro ⟨h3, h4⟩
        exact le_antisymm h4 h3
      · rintro rfl
        exact ⟨le_refl r, le_refl r⟩

/-- A numerical question accepting the inclusive range [2, 4]. -/
def c7_question : Question :=
  { base_question with
    id := "Q7", type := "numerical_question",
    numerical_min := 2, numerical_max := 4,
    numerical_min_html_xml := "2", numerical_max_html_xml := "4" }

/-- C7, witness: the range question [2, 4] evaluated at response 3. -/
theorem c7_numerical_range_scoring_witness :
    (question_rp c7_question).map
        (fun rp => rp_if_fires (response_declaration c7_question).values rp (.rNum 3))
      = .ok (spec_numerical_accepts c7_question 3) :=
  c7_numerical_range_scoring c7_question 3 rfl (fun e he => Option.noConfusion he)

/-- C8.  A question whose type matches none of the seven encoding
rules makes the whole generation fail with the code fatal error
(`raise ValueError`, lines 392 and 442): no output and in particular
no fallback encoding is produced for the quiz containing it. -/
theorem c8_unknown_type_fatal (quiz : Quiz) (aid title : String) (q : Question)
    (hmem : QuestionOrDelim.question q ∈ quiz.questions_and_delims)
    (hty : q.type ∉ (["true_false_question", "multiple_choice_question",
      "multiple_answers_question", "short_answer_question", "numerical_question",
      "essay_question", "file_upload_question"] : List String)) :
    assessment_v2 quiz aid title = .error .valueError := by
  obtain ⟨h1, h2, h3, h4, h5, h6, h7⟩ :
      q.type ≠ "true_false_question" ∧ q.type ≠ "multiple_choice_question" ∧
      q.type ≠ "multiple_answers_question" ∧ q.type ≠ "short_answer_question" ∧
      q.type ≠ "numerical_question" ∧ q.type ≠ "essay_question" ∧
      q.type ≠ "file_upload_question" := by
    simpa using hty
  have hb : body_xml (if quiz.shuffle_answers_xml = "true" then "true" else "false") q
      = .error .valueError := by
    simp [body_xml, h1, h2, h3, h4, h5, h6, h7]
  have he : entry_xml (if quiz.shuffle_answers_xml = "true" then "true" else "false")
      (QuestionOrDelim.question q) = .error .valueError := by
    simp only [entry_xml, question_xml]
    rw [hb]
    rfl
  unfold assessment_v2
  rw [entries_xml_error _ _ _ hmem he]
  rfl

/-- A question of a type outside the encoding table. -/
def c8_question : Question :=
  { base_question with id := "Q8", type := "matching_question" }

/-- A quiz containing the unsupported question. -/
def c8_quiz : Quiz :=
  { questions_and_delims := [.question c8_question], shuffle_answers_xml := "false" }

/-- C8, witness: the generator fails on the concrete quiz holding a
`matching_question`. -/
theorem c8_unknown_type_fatal_witness :
    assessment_v2 c8_quiz "aid" "t" = .error .valueError :=
  c8_unknown_type_fatal c8_quiz "aid" "t" c8_question (by simp [c8_quiz]) (by decide)

/-- C9.  The generator of lines 280-448 is a pure function of its
`(quiz, assessment_identifier, title_xml)` arguments — the source
consults no clock, randomness, or mutable state — so equal inputs
always produce byte-identical output. -/
theorem c9_deterministic_output (q1 q2 : Quiz) (a1 a2 t1 t2 : String)
    (hq : q1 = q2) (ha : a1 = a2) (ht : t1 = t2) :
    assessment_v2 q1 a1 t1 = assessment_v2 q2 a2 t2 := by
  rw [hq, ha, ht]

/-- C9, witness: two generations of the same concrete pair agree. -/
theorem c9_deterministic_output_witness :
    assessment_v2 { questions_and_delims := [], shuffle_answers_xml := "true" } "aid" "t"
      = assessment_v2 { questions_and_delims := [], shuffle_answers_xml := "true" } "aid" "t" :=
  c9_deterministic_output _ _ _ _ _ _ rfl rfl rfl

/-- C10.  For essay and file-upload questions the generated item
carries no metadata declaration (lines 360-364), its only feedback
action is the general channel even when the correct and incorrect
channels are set (lines 437-440 pass only `general_feedback`), its
only score action is the `SCORE := 0` of the null branch, and that
branch fires exactly when the response is null. -/
theorem c10_essay_upload_feedback_and_null_check (q : Question) (cs ics : String)
    (vals : List String) (resp : Response)
    (hty : q.type = "essay_question" ∨ q.type = "file_upload_question")
    (hc : q.correct_feedback_raw = some cs)
    (hi : q.incorrect_feedback_raw = some ics) :
    (question_item q).map (fun it => it.metadata) = .ok none ∧
    (question_item q).map (fun it => rp_feedback_strings it.rp)
      = .ok (if q.feedback_raw.isSome then [q.feedback_html_xml] else []) ∧
    (question_item q).map (fun it => rp_score_actions it.rp) = .ok [.setScoreZero] ∧
    (question_item q).map (fun it => rp_if_fires vals it.rp resp) = .ok (decide (resp = .rNull)) := by
  rcases hty with h | h <;>
  · have hitem : question_item q = .ok
        { identifier := "qtimaker_question_" ++ q.id
          metadata := none
          body_choice_identifiers := []
          max_choices := none
          rp := .condition (.base .isNullResponse) [.setScoreZero]
                  (if q.feedback_raw.isSome then [[.setFeedback q.feedback_html_xml]] else []) } := by
      simp [question_item, question_rp, feedback_actions, h]
      rfl
    refine ⟨?_, ?_, ?_, ?_⟩ <;> rw [hitem]
    · rfl
    · cases hg : q.feedback_raw <;> simp [Except.map, rp_feedback_strings, hg]
    · cases hg : q.feedback_raw <;> simp [Except.map, rp_score_actions, hg]
    · cases resp <;> simp [Except.map, rp_if_fires, evalCond, evalBase]

/-- An essay question with all three feedback channels set. -/
def c10_question : Question :=
  { base_question with
    id := "QA", type := "essay_question",
    correct_feedback_raw := some "c", correct_feedback_html_xml := "CF",
    incorrect_feedback_raw := some "i", incorrect_feedback_html_xml := "IF",
    feedback_raw := some "g", feedback_html_xml := "GF" }

/-- C10, witness: the statement evaluated on a concrete essay question
with every feedback channel set, at the null response. -/
theorem c10_essay_upload_feedback_and_null_check_witness :
    (question_item c10_question).map (fun it => it.metadata) = .ok none ∧
    (question_item c10_question).map (fun it => rp_feedback_strings it.rp)
      = .ok (if c10_question.feedback_raw.isSome then [c10_question.feedback_html_xml] else []) ∧
    (question_item c10_question).map (fun it => rp_score_actions it.rp) = .ok [.setScoreZero] ∧
    (question_item c10_question).map (fun it => rp_if_fires [] it.rp .rNull)
      = .ok (decide ((Response.rNull) = .rNull)) :=
  c10_essay_upload_feedback_and_null_check c10_question "c" "i" [] .rNull (Or.inl rfl) rfl rfl

end Qtimaker
